import Mathlib

/-!
Verification of the deterministic ATS scoring engine of the AI_jobpylot
repository against its natural-language specification.

The main dimension scorers are embedded from `src/deterministic_ats_engine.py`
(class `DeterministicATSEngine`), and the weighted aggregation / report
pipeline from `src/services/deterministic_ats_engine.py`.

Modelling conventions:
* Python floats are modelled as exact rationals (`ℚ`).  Every constant in the
  engine is a small decimal (0.5, 0.3, 1.15, ...); we use the exact rational
  value of the written decimal literal.
* Python strings are modelled as Lean `String`s, manipulated through their
  underlying `List Char`.  Lowercasing, stripping, splitting and joining are
  defined explicitly below so that they mirror the CPython behaviour on the
  ASCII texts the engine works with.
* The regular-expression fragments used by the engine (`\d+`, `\s*`, `\b`,
  fixed words, `(?=\w)`, `.`) are modelled by a small token language with a
  maximal-munch matcher.  Maximal munch is exact for every pattern occurring
  in the engine because no repeatable class (`\d`, `\s`, `\w`) is ever
  followed by a token able to consume a character of the same class.
* A `ResumeRecord` is modelled as a record in which every field is present
  with an empty default, following the spec invariant that all fields
  default to empty and are never null.
-/

/-- Word character in the sense of the regex class `\w` (ASCII range, which is
the only range exercised by the engine's lexicons). -/
def isWordChar (c : Char) : Bool :=
  c.isAlphanum || c = '_'

/-- Word-character test lifted to an optional character; the absence of a
character (start or end of the text) counts as a non-word position. -/
def isWordO : Option Char → Bool
  | some c => isWordChar c
  | none => false

/-- Python `str.lower()` restricted to ASCII. -/
def lowerStr (s : String) : String :=
  ⟨s.data.map Char.toLower⟩

/-- Python `str.strip()` with no argument: remove leading and trailing
whitespace (ASCII whitespace, which is what résumé text contains). -/
def pyStrip (s : String) : String :=
  ⟨((s.data.dropWhile Char.isWhitespace).reverse.dropWhile Char.isWhitespace).reverse⟩

/-- Python `' '.join(parts)`. -/
def joinSp (parts : List String) : String :=
  match parts with
  | [] => ""
  | p :: ps => ps.foldl (fun acc q => acc ++ " " ++ q) p

/-- Python `needle in hay` on strings: substring containment. -/
def containsSub (needle hay : String) : Bool :=
  (List.range (hay.data.length + 1)).any
    (fun i => needle.data.isPrefixOf (hay.data.drop i))

/-- Python `s.split('.')`: split on every dot, keeping empty parts. -/
def splitOnDot (cs : List Char) : List (List Char) :=
  match cs with
  | [] => [[]]
  | c :: rest =>
    let r := splitOnDot rest
    if c = '.' then [] :: r
    else
      match r with
      | x :: xs => (c :: x) :: xs
      | [] => [[c]]

/-- Python `str(xs)` for a list of strings, as it appears in
`_extract_all_text` (`str(exp.get('Responsibilities', []))`): the bracketed,
quoted, comma-separated rendering.  Quotes are modelled for entries without
embedded quote characters, which is the case for résumé bullet text. -/
def pyStrOfList (xs : List String) : String :=
  "[" ++ String.intercalate ", " (xs.map (fun s => "\x27" ++ s ++ "\x27")) ++ "]"

/-- Tokens of the regex fragments used by the engine. -/
inductive RTok
  /-- a fixed literal word (already lowercased, matching IGNORECASE text) -/
  | lit (w : String)
  /-- the class `.`: any single character -/
  | anyc
  /-- the fragment `\d+` -/
  | digits
  /-- the fragment `\d{k}` -/
  | ndigits (k : Nat)
  /-- the fragment `\s+` -/
  | ws1
  /-- the fragment `\s*` -/
  | ws0
  /-- the fragment `\w+` -/
  | wplus
  /-- the zero-width boundary `\b` -/
  | wb
  /-- the zero-width lookahead `(?=\w)` -/
  | ahead
deriving DecidableEq, Repr

/-- Last character of a consumed chunk, falling back to the previous
character when the chunk is empty (used to thread the `\b` context). -/
def lastOr (l : List Char) (prev : Option Char) : Option Char :=
  match l.getLast? with
  | some c => some c
  | none => prev

/-- Maximal-munch matcher: `matchToks toks prev cs` returns how many leading
characters of `cs` a match of the token sequence consumes, or `none`.
`prev` is the character immediately before `cs` in the full text (`none` at
the start), needed by `\b`. -/
def matchToks : List RTok → Option Char → List Char → Option Nat
  | [], _, _ => some 0
  | .lit w :: ts, prev, cs =>
    if w.data.isPrefixOf cs then
      (matchToks ts (lastOr w.data prev) (cs.drop w.data.length)).map (· + w.data.length)
    else none
  | .anyc :: ts, _, cs =>
    match cs with
    | [] => none
    | c :: rest => (matchToks ts (some c) rest).map (· + 1)
  | .digits :: ts, prev, cs =>
    let d := cs.takeWhile Char.isDigit
    if d.length = 0 then none
    else (matchToks ts (lastOr d prev) (cs.drop d.length)).map (· + d.length)
  | .ndigits k :: ts, prev, cs =>
    let d := cs.take k
    if d.length = k ∧ d.all Char.isDigit then
      (matchToks ts (lastOr d prev) (cs.drop k)).map (· + k)
    else none
  | .ws1 :: ts, prev, cs =>
    let d := cs.takeWhile Char.isWhitespace
    if d.length = 0 then none
    else (matchToks ts (lastOr d prev) (cs.drop d.length)).map (· + d.length)
  | .ws0 :: ts, prev, cs =>
    let d := cs.takeWhile Char.isWhitespace
    (matchToks ts (lastOr d prev) (cs.drop d.length)).map (· + d.length)
  | .wplus :: ts, prev, cs =>
    let d := cs.takeWhile isWordChar
    if d.length = 0 then none
    else (matchToks ts (lastOr d prev) (cs.drop d.length)).map (· + d.length)
  | .wb :: ts, prev, cs =>
    if isWordO prev ≠ isWordO cs.head? then matchToks ts prev cs else none
  | .ahead :: ts, prev, cs =>
    if isWordO cs.head? then matchToks ts prev cs else none

/-- Character immediately before position `i` of `cs` (none at the start). -/
def prevCh (cs : List Char) (i : Nat) : Option Char :=
  if i = 0 then none else cs.get? (i - 1)

/-- Fuel-driven left-to-right scan counting non-overlapping matches, as
`re.findall` does: after a match of `n` consumed characters the scan resumes
`n` positions later (at least one).  Every pattern in the engine consumes at
least one character, so stopping at the end of the text is exact.  The fuel
`cs.length + 1` is enough because the position strictly increases. -/
def scanCountAux (toks : List RTok) (cs : List Char) : Nat → Nat → Nat
  | _, 0 => 0
  | i, fuel + 1 =>
    if i < cs.length then
      match matchToks toks (prevCh cs i) (cs.drop i) with
      | some n => 1 + scanCountAux toks cs (i + max n 1) fuel
      | none => scanCountAux toks cs (i + 1) fuel
    else 0

/-- Number of matches of a pattern in a text, in the sense of
`len(re.findall(pattern, text))`. -/
def scanCount (toks : List RTok) (t : String) : Nat :=
  scanCountAux toks t.data 0 (t.data.length + 1)

/-- Whether a pattern matches anywhere, in the sense of `re.search`. -/
def searchToks (toks : List RTok) (t : String) : Bool :=
  (List.range (t.data.length + 1)).any
    (fun i => (matchToks toks (prevCh t.data i) (t.data.drop i)).isSome)

/-- Count of whole-word matches of a fixed word: `len(re.findall(r'\b' + w +
r'\b', text))` (the text is already lowercased by the extractor, so the
IGNORECASE flag is accounted for by storing lowercase lexicon entries). -/
def countWord (w : String) (t : String) : Nat :=
  scanCount [RTok.wb, RTok.lit w, RTok.wb] t

/-- Total whole-word match count of a lexicon over a text. -/
def countWBTotal (lex : List String) (t : String) : Nat :=
  (lex.map (fun w => countWord w t)).sum

/-! ## Lexicons (from `DeterministicATSEngine.__init__` in
`src/deterministic_ats_engine.py`).  Python sets are modelled as
duplicate-free lists (the duplicated literal `'founded'` in the
`strong_verbs` set collapses to one set element). -/

/-- The `weak_verbs` set. -/
def weak_verbs : List String :=
  ["helped", "assisted", "worked on", "participated in", "was involved in",
   "contributed to", "supported", "helped with", "was part of", "took part in",
   "was responsible for", "did", "made", "got", "had", "used", "did work on",
   "was working on", "was helping with", "was supporting", "was contributing to"]

/-- The `strong_verbs` set. -/
def strong_verbs : List String :=
  ["developed", "implemented", "designed", "created", "built", "launched",
   "managed", "led", "directed", "orchestrated", "spearheaded", "initiated",
   "established", "founded", "optimized", "improved", "enhanced",
   "streamlined", "automated", "integrated", "deployed", "delivered",
   "achieved", "accomplished", "exceeded", "surpassed", "generated",
   "increased", "reduced", "saved", "cut", "boosted", "drove", "facilitated",
   "coordinated", "collaborated", "mentored", "trained", "educated",
   "researched", "analyzed", "evaluated", "assessed", "reviewed",
   "maintained", "upgraded", "modernized", "migrated", "converted"]

/-- The `buzzwords` set. -/
def buzzwords : List String :=
  ["synergy", "leverage", "paradigm", "disruptive", "innovative",
   "cutting-edge", "best-in-class", "world-class", "game-changer",
   "thought leader", "guru", "ninja", "rockstar", "wizard",
   "passionate", "dynamic", "proactive", "results-driven",
   "detail-oriented", "team player", "self-starter", "go-getter",
   "hard-working", "dedicated", "committed", "motivated",
   "problem solver", "quick learner", "fast-paced", "high-energy",
   "out-of-the-box", "outside the box", "think outside the box",
   "value-added", "value proposition", "core competency",
   "mission-critical", "strategic", "tactical", "scalable",
   "robust", "comprehensive", "holistic", "end-to-end"]

/-- The `quantifiable_indicators` regex list, token by token. -/
def quantifiable_indicators : List (List RTok) :=
  [[.digits, .lit "%"], [.digits, .ws0, .lit "percent"], [.digits, .ws0, .lit "%"],
   [.lit "$", .digits], [.digits, .ws0, .lit "dollars"], [.digits, .ws0, .lit "usd"],
   [.digits, .ws0, .lit "people"], [.digits, .ws0, .lit "users"], [.digits, .ws0, .lit "customers"],
   [.digits, .ws0, .lit "years"], [.digits, .ws0, .lit "months"], [.digits, .ws0, .lit "weeks"],
   [.digits, .ws0, .lit "projects"], [.digits, .ws0, .lit "applications"], [.digits, .ws0, .lit "systems"],
   [.digits, .ws0, .lit "times"], [.digits, .ws0, .lit "fold"], [.digits, .lit "x"],
   [.lit "increased", .ws1, .lit "by", .ws1, .digits], [.lit "decreased", .ws1, .lit "by", .ws1, .digits],
   [.lit "reduced", .ws1, .lit "by", .ws1, .digits], [.lit "improved", .ws1, .lit "by", .ws1, .digits],
   [.lit "from", .ws1, .digits, .ws1, .lit "to", .ws1, .digits],
   [.lit "grew", .ws1, .lit "from", .ws1, .digits, .ws1, .lit "to", .ws1, .digits]]

/-- The `teamwork_indicators` list. -/
def teamwork_indicators : List String :=
  ["team", "collaborate", "collaboration", "coordinate", "coordination",
   "lead", "led", "managed", "mentor", "mentored", "train", "trained",
   "supervise", "supervised", "guide", "guided", "facilitate",
   "facilitated", "organize", "organized", "plan", "planned",
   "work with", "worked with", "partner", "partnered", "joint",
   "cross-functional", "cross-functional team", "multi-disciplinary",
   "stakeholder", "stakeholders", "client", "clients", "customer",
   "customers", "vendor", "vendors", "supplier", "suppliers"]

/-- Achievement-indicator phrases of
`score_achievements_vs_responsibilities`. -/
def achievement_indicators : List String :=
  ["achieved", "increased", "improved", "reduced", "saved", "generated", "led to"]

/-! ## Resume record -/

/-- One `work_experience` entry of the résumé record. -/
structure Experience where
  job_title : String := ""
  company : String := ""
  duration : String := ""
  location : String := ""
  responsibilities : List String := []
  tech_stack : List String := []
deriving DecidableEq, Repr

/-- One `education` entry of the résumé record. -/
structure EducationEntry where
  degree : String := ""
  institution : String := ""
  location : String := ""
  start_year : String := ""
  end_year : String := ""
deriving DecidableEq, Repr

/-- The normalized `ResumeRecord` (spec §3): every field present, defaulting
to empty.  A Python key whose value is absent is the same as an empty value
under this invariant, which is how the engine treats the record (`in` tests
combined with truthiness). -/
structure Resume where
  name : String := ""
  summary : String := ""
  work_experience : List Experience := []
  education : List EducationEntry := []
  /-- ordered skill mapping, category name to list of skills -/
  skills : List (String × List String) := []
  email : String := ""
  phone : String := ""
  address : String := ""
  location : String := ""
  city : String := ""
  state : String := ""
  linkedin : String := ""
  github : String := ""
  portfolio : String := ""
  website : String := ""
  hobbies : List String := []
  interests : List String := []
  personal : List String := []
  references : List String := []
deriving DecidableEq, Repr

/-- `DeterministicATSEngine._extract_all_text`: summary, then per-job title,
company and the `str()` rendering of the responsibilities list, then per
education entry degree and institution, then every skill of every category,
joined by single spaces and lowercased. -/
def extract_all_text (r : Resume) : String :=
  let text_parts :=
    [r.summary]
    ++ (r.work_experience.map (fun e => [e.job_title, e.company, pyStrOfList e.responsibilities])).join
    ++ (r.education.map (fun e => [e.degree, e.institution])).join
    ++ (r.skills.map (fun p => p.2)).join
  lowerStr (joinSp text_parts)

/-! ## Dimension scorers (class `DeterministicATSEngine` of
`src/deterministic_ats_engine.py`).  Every scorer returns
`max(0.0, min(10.0, score))` unless it short-circuits to the fixed 2.0. -/

/-- The final clamp `max(0.0, min(10.0, score))`. -/
def clamp10 (x : ℚ) : ℚ := max 0 (min 10 x)

/-- `score_summary`. -/
def score_summary (summary : String) : ℚ :=
  if summary = "" ∨ (pyStrip summary).length < 10 then 2
  else
    let summary_lower := lowerStr summary
    let sentences := splitOnDot summary.data
    let sentence_adj : ℚ :=
      if 3 ≤ sentences.length ∧ sentences.length ≤ 4 then 1
      else if 4 < sentences.length then -1 else 0
    let strong_verb_count := strong_verbs.countP (fun v => containsSub v summary_lower)
    let quantifiable_count := quantifiable_indicators.countP (fun p => searchToks p summary_lower)
    let buzzword_count := buzzwords.countP (fun b => containsSub b summary_lower)
    clamp10 (5 + sentence_adj
      + min ((strong_verb_count : ℚ) * (1/2)) 2
      + min ((quantifiable_count : ℚ) * 1) 2
      - min ((buzzword_count : ℚ) * (1/2)) 2)

/-- `DeterministicATSEngine._get_date_format`: anchored prefix match
(`re.match`) against the four labelled formats, in order. -/
def get_date_format (date_string : String) : String :=
  if (matchToks [.ndigits 4, .lit "-", .ndigits 2] none date_string.data).isSome then "YYYY-MM"
  else if (matchToks [.ndigits 2, .lit "/", .ndigits 4] none date_string.data).isSome then "MM/YYYY"
  else if (matchToks [.ndigits 4, .lit "/", .ndigits 2] none date_string.data).isSome then "YYYY/MM"
  else if (matchToks [.wplus, .ws1, .ndigits 4] none date_string.data).isSome then "Month YYYY"
  else "other"

/-- The consistency loop of `score_dates`: walk the date-format labels of
the nonempty durations, comparing each with the previous one. -/
def date_consistency : List String → Option String → Bool → Bool
  | [], _, consistent => consistent
  | f :: fs, prev, consistent =>
    let consistent' :=
      match prev with
      | some p => if f ≠ p then false else consistent
      | none => consistent
    date_consistency fs (some f) consistent'

/-- `score_dates`: nonempty work-experience durations are classified and
checked for a consistent format; education entries with a start or end year
only increase the date count. -/
def score_dates (r : Resume) : ℚ :=
  let durations := (r.work_experience.map (fun e => e.duration)).filter (fun d => d ≠ "")
  let consistent_format := date_consistency (durations.map get_date_format) none true
  let education_dates := r.education.filter (fun e => e.start_year ≠ "" ∨ e.end_year ≠ "")
  let date_count := durations.length + education_dates.length
  clamp10 (if 0 < date_count then
    5 + (if consistent_format then 3 else -2) + (if 2 ≤ date_count then 1 else 0)
  else 5)

/-- Whole-word weak-verb count over the extracted corpus. -/
def weak_verb_count (r : Resume) : Nat :=
  countWBTotal weak_verbs (extract_all_text r)

/-- Whole-word strong-verb count over the extracted corpus. -/
def strong_verb_count (r : Resume) : Nat :=
  countWBTotal strong_verbs (extract_all_text r)

/-- The arithmetic of `score_weak_verbs` as a function of the two counts,
exactly as the source computes it: ratios are only formed when the total
verb count is positive. -/
def score_weak_verbs_of (weak strong : Nat) : ℚ :=
  let total := weak + strong
  clamp10 (if 0 < total then
    5 + (if 1/2 < (weak : ℚ) / (total : ℚ) then -3
         else if 3/10 < (weak : ℚ) / (total : ℚ) then -(3/2) else 0)
      + (if 7/10 < (strong : ℚ) / (total : ℚ) then 2
         else if 1/2 < (strong : ℚ) / (total : ℚ) then 1 else 0)
  else 5)

/-- `score_weak_verbs`. -/
def score_weak_verbs (r : Resume) : ℚ :=
  score_weak_verbs_of (weak_verb_count r) (strong_verb_count r)

/-- `score_quantity_impact`: total `re.findall` matches over all
quantifiable-indicator patterns. -/
def score_quantity_impact (r : Resume) : ℚ :=
  let quantifiable_count :=
    (quantifiable_indicators.map (fun p => scanCount p (extract_all_text r))).sum
  clamp10 (5 + (if 5 ≤ quantifiable_count then 3
    else if 3 ≤ quantifiable_count then 2
    else if 1 ≤ quantifiable_count then 1 else -2))

/-- `score_teamwork`. -/
def score_teamwork (r : Resume) : ℚ :=
  let teamwork_count := countWBTotal teamwork_indicators (extract_all_text r)
  clamp10 (5 + (if 5 ≤ teamwork_count then 3
    else if 3 ≤ teamwork_count then 2
    else if 1 ≤ teamwork_count then 1 else -1))

/-- Whole-word buzzword count over the extracted corpus. -/
def buzzword_count (r : Resume) : Nat :=
  countWBTotal buzzwords (extract_all_text r)

/-- The four-tier bucketing of `score_buzzwords` as a function of the
count. -/
def score_buzzwords_of (n : Nat) : ℚ :=
  clamp10 (5 + (if n = 0 then 3 else if n ≤ 2 then 1 else if n ≤ 5 then -1 else -3))

/-- `score_buzzwords`. -/
def score_buzzwords (r : Resume) : ℚ :=
  score_buzzwords_of (buzzword_count r)

/-- `score_contact_details`: the ten `required_contact_fields` values in
source order; a field counts when present and truthy (nonempty). -/
def score_contact_details (r : Resume) : ℚ :=
  let contact_fields :=
    ([r.email, r.phone, r.address, r.location, r.city, r.state,
      r.linkedin, r.github, r.portfolio, r.website].filter (fun v => v ≠ "")).length
  let essential_count := ([r.email, r.phone].filter (fun v => v ≠ "")).length
  clamp10 (5
    + (if essential_count = 2 then 3 else if essential_count = 1 then 1 else -2)
    + (if 4 ≤ contact_fields then 1 else 0))

/-- Total `re.findall` error count of the six `common_errors` patterns of
`score_grammar_spelling`, over the (already lowercased) corpus. -/
def grammar_error_count (t : String) : Nat :=
  scanCount [.wb, .lit "i", .ws1] t
  + scanCount [.wb, .lit "its", .ws1, .ahead] t
  + scanCount [.wb, .lit "youre", .wb] t
  + scanCount [.wb, .lit "theyre", .wb] t
  + scanCount [.wb, .lit "weve", .wb] t
  + scanCount [.wb, .lit "ive", .wb] t

/-- `score_grammar_spelling`. -/
def score_grammar_spelling (r : Resume) : ℚ :=
  let error_count := grammar_error_count (extract_all_text r)
  clamp10 (5 + (if error_count = 0 then 3
    else if error_count ≤ 2 then 1
    else if error_count ≤ 5 then -1 else -3))

/-- `score_formatting_layout`. -/
def score_formatting_layout (r : Resume) : ℚ :=
  let present_sections :=
    (if r.work_experience ≠ [] then 1 else 0)
    + (if r.education ≠ [] then 1 else 0)
    + (if r.skills ≠ [] then 1 else 0)
  let section_adj : ℚ :=
    if present_sections = 3 then 2 else if present_sections = 2 then 1 else -1
  let skills_adj : ℚ := if 0 < r.skills.length then 1 else 0
  let responsibilities_adj : ℚ :=
    match r.work_experience with
    | [] => 0
    | first_job :: _ => if 0 < first_job.responsibilities.length then 1 else 0
  clamp10 (5 + section_adj + skills_adj + responsibilities_adj)

/-- The general-keyword fallback block of `score_ats_keywords` (the `else`
branch): a fixed 12-entry keyword list matched with `\b...\b` (the dot of
`node.js` is the regex any-character class, since these keywords are not
`re.escape`d). -/
def score_ats_keywords_generic (r : Resume) : ℚ :=
  let general_keywords : List (List RTok) :=
    [[.wb, .lit "python", .wb], [.wb, .lit "javascript", .wb], [.wb, .lit "java", .wb],
     [.wb, .lit "sql", .wb], [.wb, .lit "react", .wb],
     [.wb, .lit "node", .anyc, .lit "js", .wb],
     [.wb, .lit "aws", .wb], [.wb, .lit "docker", .wb], [.wb, .lit "git", .wb],
     [.wb, .lit "agile", .wb], [.wb, .lit "api", .wb], [.wb, .lit "database", .wb]]
  let keyword_matches :=
    (general_keywords.filter (fun p => searchToks p (extract_all_text r))).length
  clamp10 (5 + (if 5 ≤ keyword_matches then 2 else if 3 ≤ keyword_matches then 1 else 0))

/-- `score_ats_keywords`: a truthy (nonempty) caller-supplied keyword list is
matched with `re.escape`d whole-word search and bucketed by the matched
fraction; `None` or an empty list falls back to the generic block. -/
def score_ats_keywords (r : Resume) (job_keywords : Option (List String)) : ℚ :=
  match job_keywords with
  | some (k :: ks) =>
    let kws := k :: ks
    let keyword_matches :=
      (kws.filter (fun kw =>
        searchToks [.wb, .lit (lowerStr kw), .wb] (extract_all_text r))).length
    clamp10 (5 + (if (kws.length : ℚ) * (4/5) ≤ (keyword_matches : ℚ) then 3
      else if (kws.length : ℚ) * (1/2) ≤ (keyword_matches : ℚ) then 2
      else if (kws.length : ℚ) * (3/10) ≤ (keyword_matches : ℚ) then 1 else 0))
  | _ => score_ats_keywords_generic r

/-- `score_skills_relevance`. -/
def score_skills_relevance (r : Resume) : ℚ :=
  if r.skills = [] then 2
  else
    let categorized_adj : ℚ := if 1 < r.skills.length then 1 else 0
    let tech_skills := (List.lookup "TechStack" r.skills).getD []
    let tech_adj : ℚ :=
      if tech_skills ≠ [] ∧ 3 ≤ tech_skills.length then 2
      else if tech_skills ≠ [] ∧ 1 ≤ tech_skills.length then 1 else 0
    let soft_skills := (List.lookup "soft_skills" r.skills).getD []
    let soft_adj : ℚ := if soft_skills ≠ [] ∧ 2 ≤ soft_skills.length then 1 else 0
    clamp10 (5 + categorized_adj + tech_adj + soft_adj)

/-- `score_achievements_vs_responsibilities`. -/
def score_achievements_vs_responsibilities (r : Resume) : ℚ :=
  let bullets := (r.work_experience.map (fun e => e.responsibilities)).join
  let is_achievement := fun (b : String) =>
    achievement_indicators.any (fun ind => containsSub ind (lowerStr b))
  let achievement_count := (bullets.filter is_achievement).length
  let responsibility_count := (bullets.filter (fun b => ¬ is_achievement b)).length
  clamp10 (5 + (if 0 < achievement_count ∧ 0 < responsibility_count then
      (let ratio : ℚ := (achievement_count : ℚ) / ((achievement_count : ℚ) + (responsibility_count : ℚ))
       if 3/5 ≤ ratio then 2 else if 2/5 ≤ ratio then 1 else if ratio < 1/5 then -1 else 0)
    else if 0 < achievement_count then 1 else -2))

/-- `score_unnecessary_sections`. -/
def score_unnecessary_sections (r : Resume) : ℚ :=
  let found_unnecessary :=
    (if r.hobbies ≠ [] then 1 else 0)
    + (if r.interests ≠ [] then 1 else 0)
    + (if r.personal ≠ [] then 1 else 0)
    + (if r.references ≠ [] then 1 else 0)
  clamp10 (5 + (if found_unnecessary = 0 then 2
    else if found_unnecessary = 1 then 1 else -1))

/-! ## Weighted aggregation and report assembly
(`src/services/deterministic_ats_engine.py`). -/

/-- Python `round(x, 2)` under exact rational arithmetic: round to two
decimal places, ties to the even hundredth (banker's rounding). -/
def round2 (x : ℚ) : ℚ :=
  let y := x * 100
  let f := Int.floor y
  let frac := y - (f : ℚ)
  (if 1/2 < frac then ((f + 1 : ℤ) : ℚ)
   else if frac < 1/2 then (f : ℚ)
   else if f % 2 = 0 then (f : ℚ) else ((f + 1 : ℤ) : ℚ)) / 100

/-- Python `int(s)` for the year strings fed to it: optional surrounding
whitespace, optional sign, at least one digit; anything else raises (the
source catches the exception). -/
def pyParseInt (s : String) : Option Int :=
  let t := (pyStrip s).data
  let core : Option (List Char × Bool) :=
    match t with
    | '-' :: rest => some (rest, true)
    | '+' :: rest => some (rest, false)
    | rest => some (rest, false)
  match core with
  | some (ds, neg) =>
    if ds ≠ [] ∧ ds.all Char.isDigit then
      let n : Nat := ds.foldl (fun acc c => acc * 10 + (c.toNat - 48)) 0
      some (if neg then -(n : Int) else (n : Int))
    else none
  | none => none

/-- `DeterministicATSEngine._calculate_education_score` from the services
engine: degree level, institution wording and recency relative to the wall
clock's current year (made an explicit argument `current_year` here, since
the source reads `datetime.now().year`). -/
def calculate_education_score (education_data : List EducationEntry) (current_year : Int) : ℚ :=
  match education_data with
  | [] => 0
  | highest_degree :: _ =>
    let degree := lowerStr highest_degree.degree
    let degree_score : ℚ :=
      if containsSub "phd" degree ∨ containsSub "doctorate" degree then 6
      else if containsSub "master" degree then 5
      else if containsSub "bachelor" degree then 4
      else if containsSub "associate" degree then 3
      else if containsSub "diploma" degree ∨ containsSub "certificate" degree then 2
      else 1
    let institution := lowerStr highest_degree.institution
    let institution_score : ℚ :=
      if containsSub "university" institution ∨ containsSub "college" institution
          ∨ containsSub "institute" institution then 2 else 1
    let recency_score : ℚ :=
      match pyParseInt highest_degree.end_year with
      | some year =>
        let years_since := current_year - year
        if years_since ≤ 5 then 2 else if years_since ≤ 10 then 3/2 else 1
      | none => 1
    round2 (min 10 (degree_score + institution_score + recency_score))

/-- `DeterministicATSConfig` with its `__post_init__` defaults. -/
structure ATSConfig where
  scoring_weights : List (String × ℚ) :=
    [("summary", 3/10), ("experience", 1/4), ("skills", 1/5),
     ("education", 3/20), ("keywords", 7/100), ("formatting", 3/100)]
  keyword_boost : ℚ := 2
  quantifiable_boost : ℚ := 5/2
  action_verb_boost : ℚ := 9/5
  experience_boost : ℚ := 19/10
  education_boost : ℚ := 3/2
  leadership_boost : ℚ := 11/5
deriving DecidableEq, Repr

/-- `DeterministicATSEngine._calculate_final_score`: weighted sum with
conditional boost factors, normalized by the boosted weights, then a flat
1.15 multiplicative adjustment, a clamp to 10 and rounding to two
decimals.  Section scores are an ordered association list, as the Python
dict iteration is. -/
def calculate_final_score (cfg : ATSConfig) (section_scores : List (String × ℚ)) : ℚ :=
  let contribs := section_scores.map (fun p =>
    let base_weight := (List.lookup p.1 cfg.scoring_weights).getD (1/10)
    let boost : ℚ :=
      if p.1 = "summary" ∧ 8 ≤ p.2 then cfg.leadership_boost
      else if p.1 = "experience" ∧ 7 ≤ p.2 then cfg.experience_boost
      else if p.1 = "skills" ∧ 8 ≤ p.2 then cfg.action_verb_boost
      else if p.1 = "keywords" ∧ 7 ≤ p.2 then cfg.keyword_boost
      else 1
    (p.2 * base_weight * boost, base_weight * boost))
  let total_score := (contribs.map (fun c => c.1)).sum
  let total_weight := (contribs.map (fun c => c.2)).sum
  let final_score := if 0 < total_weight then total_score / total_weight else 0
  round2 (min 10 (final_score * (23/20)))

/-- The wall-clock-dependent slice of the dict returned by
`DeterministicATSEngine.analyze_resume_deterministic`: the `timestamp`
field (`datetime.now().isoformat()`), the education section score (the only
section score that reads the clock, via `datetime.now().year`), and the
constant `deterministic` / `no_fluctuations` flags.  The remaining fields
are functions of the resume record alone and are omitted from this
record. -/
structure DetReport where
  timestamp : String
  education_score : ℚ
  deterministic : Bool
  no_fluctuations : Bool
deriving DecidableEq, Repr

/-- `analyze_resume_deterministic`, with the two `datetime.now()` readings
made explicit inputs `now_iso` (the ISO timestamp string) and
`now_year`. -/
def analyze_resume_deterministic (r : Resume) (now_iso : String) (now_year : Int) : DetReport :=
  { timestamp := now_iso
    education_score := calculate_education_score r.education now_year
    deterministic := true
    no_fluctuations := true }

/-! ## Helper lemmas -/

lemma clamp10_nonneg (x : ℚ) : 0 ≤ clamp10 x :=
  le_max_left 0 _

lemma clamp10_le_ten (x : ℚ) : clamp10 x ≤ 10 :=
  max_le (by norm_num) (min_le_left 10 x)

lemma clamp10_mono {x y : ℚ} (h : x ≤ y) : clamp10 x ≤ clamp10 y :=
  max_le_max le_rfl (min_le_min le_rfl h)

lemma score_summary_bounds (s : String) : 0 ≤ score_summary s ∧ score_summary s ≤ 10 := by
  unfold score_summary
  split
  · norm_num
  · exact ⟨clamp10_nonneg _, clamp10_le_ten _⟩

lemma score_ats_keywords_bounds (r : Resume) (jk : Option (List String)) :
    0 ≤ score_ats_keywords r jk ∧ score_ats_keywords r jk ≤ 10 := by
  unfold score_ats_keywords score_ats_keywords_generic
  split
  · exact ⟨clamp10_nonneg _, clamp10_le_ten _⟩
  · exact ⟨clamp10_nonneg _, clamp10_le_ten _⟩

lemma score_skills_relevance_bounds (r : Resume) :
    0 ≤ score_skills_relevance r ∧ score_skills_relevance r ≤ 10 := by
  unfold score_skills_relevance
  split
  · norm_num
  · exact ⟨clamp10_nonneg _, clamp10_le_ten _⟩

/-- C2: every dimension scorer of the engine returns a score inside
[0, 10]; inputs that only accumulate penalties clamp at 0 and never go
negative, because every scorer ends in `max(0.0, min(10.0, score))` and the
short-circuit values are the constant 2.0. -/
theorem c2_dimension_scores_bounded (r : Resume) (s : String) (jk : Option (List String)) :
    (0 ≤ score_summary s ∧ score_summary s ≤ 10) ∧
    (0 ≤ score_dates r ∧ score_dates r ≤ 10) ∧
    (0 ≤ score_weak_verbs r ∧ score_weak_verbs r ≤ 10) ∧
    (0 ≤ score_quantity_impact r ∧ score_quantity_impact r ≤ 10) ∧
    (0 ≤ score_teamwork r ∧ score_teamwork r ≤ 10) ∧
    (0 ≤ score_buzzwords r ∧ score_buzzwords r ≤ 10) ∧
    (0 ≤ score_contact_details r ∧ score_contact_details r ≤ 10) ∧
    (0 ≤ score_grammar_spelling r ∧ score_grammar_spelling r ≤ 10) ∧
    (0 ≤ score_formatting_layout r ∧ score_formatting_layout r ≤ 10) ∧
    (0 ≤ score_ats_keywords r jk ∧ score_ats_keywords r jk ≤ 10) ∧
    (0 ≤ score_skills_relevance r ∧ score_skills_relevance r ≤ 10) ∧
    (0 ≤ score_achievements_vs_responsibilities r ∧ score_achievements_vs_responsibilities r ≤ 10) ∧
    (0 ≤ score_unnecessary_sections r ∧ score_unnecessary_sections r ≤ 10) :=
  ⟨score_summary_bounds s,
   ⟨clamp10_nonneg _, clamp10_le_ten _⟩,
   ⟨clamp10_nonneg _, clamp10_le_ten _⟩,
   ⟨clamp10_nonneg _, clamp10_le_ten _⟩,
   ⟨clamp10_nonneg _, clamp10_le_ten _⟩,
   ⟨clamp10_nonneg _, clamp10_le_ten _⟩,
   ⟨clamp10_nonneg _, clamp10_le_ten _⟩,
   ⟨clamp10_nonneg _, clamp10_le_ten _⟩,
   ⟨clamp10_nonneg _, clamp10_le_ten _⟩,
   score_ats_keywords_bounds r jk,
   score_skills_relevance_bounds r,
   ⟨clamp10_nonneg _, clamp10_le_ten _⟩,
   ⟨clamp10_nonneg _, clamp10_le_ten _⟩⟩

/-- C9: a caller-supplied empty keyword list is falsy in Python, so
`score_ats_keywords` takes the generic fallback branch, returning exactly
what a call without a keyword list returns; the fraction-bucket
comparisons against `len(job_keywords) * 0.8` etc. of the truthy branch
are never evaluated for the empty list (and involve multiplication by the
length, not division). -/
theorem c9_empty_keyword_list_generic_fallback (r : Resume) :
    score_ats_keywords r (some []) = score_ats_keywords r none ∧
    score_ats_keywords r none = score_ats_keywords_generic r :=
  ⟨rfl, rfl⟩

/-- C3: an empty summary short-circuits the summary scorer to exactly 2.0,
and an empty skills mapping short-circuits the skills-relevance scorer to
exactly 2.0, regardless of every other field of the record. -/
theorem c3_empty_summary_empty_skills_short_circuit (r : Resume) :
    (r.summary = "" → score_summary r.summary = 2) ∧
    (r.skills = [] → score_skills_relevance r = 2) := by
  constructor
  · intro h
    rw [h]
    rfl
  · intro h
    unfold score_skills_relevance
    rw [h]
    rfl

theorem c3_empty_summary_empty_skills_short_circuit_witness :
    score_summary ({} : Resume).summary = 2 ∧ score_skills_relevance ({} : Resume) = 2 :=
  ⟨(c3_empty_summary_empty_skills_short_circuit {}).1 rfl,
   (c3_empty_summary_empty_skills_short_circuit {}).2 rfl⟩

/-- C6: when the extracted corpus contains no weak-verb and no strong-verb
occurrence the verb scorer leaves the base score 5.0 unchanged; the ratio
divisions sit under the `total_verbs > 0` guard, so they are only evaluated
with a positive denominator. -/
theorem c6_no_verb_evidence_neutral (r : Resume)
    (hw : weak_verb_count r = 0) (hs : strong_verb_count r = 0) :
    score_weak_verbs r = 5 := by
  unfold score_weak_verbs
  rw [hw, hs]
  norm_num [score_weak_verbs_of, clamp10]

theorem c6_no_verb_evidence_neutral_witness :
    weak_verb_count ({} : Resume) = 0 ∧ strong_verb_count ({} : Resume) = 0 ∧
      score_weak_verbs ({} : Resume) = 5 :=
  ⟨by decide, by decide, c6_no_verb_evidence_neutral {} (by decide) (by decide)⟩

lemma filter_duration_nil (l : List Experience) (h : ∀ e ∈ l, e.duration = "") :
    (l.map (fun e => e.duration)).filter (fun d => d ≠ "") = [] := by
  rw [List.filter_eq_nil_iff]
  intro d hd
  rw [List.mem_map] at hd
  obtain ⟨e, he, rfl⟩ := hd
  simp [h e he]

/-- C10: education entries carrying a start or end year increase the dated
entry count of `score_dates` but are never run through `_get_date_format`,
so with no work-experience duration strings the consistency flag stays
vacuously true: at least two education entries with years give exactly
5.0 + 3.0 + 1.0 = 9.0. -/
theorem c10_education_years_only_score_nine (r : Resume)
    (hdur : ∀ e ∈ r.work_experience, e.duration = "")
    (hedu : 2 ≤ (r.education.filter (fun e => e.start_year ≠ "" ∨ e.end_year ≠ "")).length) :
    score_dates r = 9 := by
  unfold score_dates
  rw [filter_duration_nil _ hdur]
  have hpos : 0 < (0 : Nat) + (r.education.filter
      (fun e => e.start_year ≠ "" ∨ e.end_year ≠ "")).length := by
    simpa using lt_of_lt_of_le (by norm_num) hedu
  simp only [List.map_nil, List.length_nil, date_consistency]
  rw [if_pos (by simpa using hpos)]
  rw [if_pos (show 2 ≤ 0 + (r.education.filter
      (fun e => e.start_year ≠ "" ∨ e.end_year ≠ "")).length by simpa using hedu)]
  norm_num [clamp10]

theorem c10_education_years_only_score_nine_witness :
    score_dates { education :=
      [{ degree := "BSc", start_year := "2020", end_year := "2024" },
       { degree := "MSc", start_year := "2024", end_year := "2026" }] } = 9 :=
  c10_education_years_only_score_nine _ (by intro e he; simp at he) (by decide)

lemma round2_of_mul_hundred_int (x : ℚ) (n : ℤ) (h : x * 100 = (n : ℚ)) :
    round2 x = x := by
  unfold round2
  rw [h]
  simp only [Int.floor_intCast, sub_self]
  rw [if_neg (by norm_num : ¬ (1/2 : ℚ) < 0), if_pos (by norm_num : (0:ℚ) < 1/2), ← h]
  field_simp

/-- C8 (code bug): `_extract_all_text` lowercases the corpus (and the error
patterns are compiled with `re.IGNORECASE`), so a corpus whose only
standalone i-word is the properly capitalized pronoun "I" still gets one
standalone-i error: the grammatically correct summary "I developed
systems." is scored 6.0 (bucket `error_count <= 2`), not the 8.0 the
zero-error bucket of the claim would give. -/
theorem c8_capitalized_pronoun_counted_as_error :
    grammar_error_count (extract_all_text { summary := "I developed systems." }) = 1 ∧
    score_grammar_spelling { summary := "I developed systems." } = 6 := by
  constructor
  · decide
  · have h : grammar_error_count (extract_all_text { summary := "I developed systems." }) = 1 := by
      decide
    unfold score_grammar_spelling
    rw [h]
    norm_num [clamp10]

/-- C1 (code bug): the report dict of `analyze_resume_deterministic` embeds
`datetime.now().isoformat()` as its `timestamp` field, and the education
section score reads `datetime.now().year`, so two runs of the pipeline on
one fixed ResumeRecord are not byte-identical: they differ whenever the
clock reading differs, despite the hard-coded `no_fluctuations: True`
flag.  First conjunct: two timestamps one second apart already give
different reports.  Second conjunct: the education score itself moves from
8.0 to 7.0 when the calendar year advances past the recency windows. -/
theorem c1_report_depends_on_wall_clock :
    analyze_resume_deterministic
        { education := [{ degree := "Bachelor of Science",
                          institution := "State University", end_year := "2024" }] }
        "2026-01-01T00:00:00" 2026 ≠
      analyze_resume_deterministic
        { education := [{ degree := "Bachelor of Science",
                          institution := "State University", end_year := "2024" }] }
        "2026-01-01T00:00:01" 2026 ∧
    calculate_education_score
        [{ degree := "Bachelor of Science", institution := "State University",
           end_year := "2024" }] 2026 ≠
      calculate_education_score
        [{ degree := "Bachelor of Science", institution := "State University",
           end_year := "2024" }] 2040 := by
  constructor
  · intro h
    have ht := congrArg DetReport.timestamp h
    simp only [analyze_resume_deterministic] at ht
    exact absurd ht (by decide)
  · have hb1 : containsSub "phd" (lowerStr "Bachelor of Science") = false := by decide
    have hb2 : containsSub "doctorate" (lowerStr "Bachelor of Science") = false := by decide
    have hb3 : containsSub "master" (lowerStr "Bachelor of Science") = false := by decide
    have hb4 : containsSub "bachelor" (lowerStr "Bachelor of Science") = true := by decide
    have hi1 : containsSub "university" (lowerStr "State University") = true := by decide
    have hp : pyParseInt "2024" = some 2024 := by decide
    have e26 : calculate_education_score
        [{ degree := "Bachelor of Science", institution := "State University",
           end_year := "2024" }] 2026 = 8 := by
      simp only [calculate_education_score, hb1, hb2, hb3, hb4, hi1, hp]
      norm_num [min_def]
      exact round2_of_mul_hundred_int _ 800 (by push_cast; norm_num)
    have e40 : calculate_education_score
        [{ degree := "Bachelor of Science", institution := "State University",
           end_year := "2024" }] 2040 = 7 := by
      simp only [calculate_education_score, hb1, hb2, hb3, hb4, hi1, hp]
      norm_num [min_def]
      exact round2_of_mul_hundred_int _ 700 (by push_cast; norm_num)
    rw [e26, e40]
    norm_num

lemma countP_dropWhile_of_imp (p q : Char → Bool) (l : List Char)
    (hpq : ∀ a, q a = true → p a = false) :
    (l.dropWhile q).countP p = l.countP p := by
  induction l with
  | nil => rfl
  | cons c t ih =>
    rw [List.dropWhile_cons]
    by_cases hc : q c = true
    · rw [if_pos hc, ih, List.countP_cons, hpq c hc]
      simp
    · rw [if_neg hc]

lemma countP_reverse_eq (p : Char → Bool) (l : List Char) :
    l.reverse.countP p = l.countP p := by
  simp [List.countP_eq_length_filter, List.filter_reverse]

lemma nonws_le_pyStrip_length (s : String) :
    s.data.countP (fun c => !c.isWhitespace) ≤ (pyStrip s).length := by
  have himp : ∀ a : Char, a.isWhitespace = true → (!a.isWhitespace) = false := by
    intro a ha
    rw [ha]
    rfl
  have h1 : (pyStrip s).data.countP (fun c => !c.isWhitespace)
      = s.data.countP (fun c => !c.isWhitespace) := by
    show (((s.data.dropWhile Char.isWhitespace).reverse.dropWhile
      Char.isWhitespace).reverse).countP (fun c => !c.isWhitespace) = _
    rw [countP_reverse_eq, countP_dropWhile_of_imp _ _ _ himp,
      countP_reverse_eq, countP_dropWhile_of_imp _ _ _ himp]
  calc s.data.countP (fun c => !c.isWhitespace)
      = (pyStrip s).data.countP (fun c => !c.isWhitespace) := h1.symm
    _ ≤ (pyStrip s).data.length := List.countP_le_length _
    _ = (pyStrip s).length := rfl

lemma pyStrip_length_le (s : String) : (pyStrip s).length ≤ s.length := by
  show (((s.data.dropWhile Char.isWhitespace).reverse.dropWhile
    Char.isWhitespace).reverse).length ≤ s.data.length
  rw [List.length_reverse]
  calc ((s.data.dropWhile Char.isWhitespace).reverse.dropWhile Char.isWhitespace).length
      ≤ (s.data.dropWhile Char.isWhitespace).reverse.length :=
        (List.dropWhile_sublist _).length_le
    _ = (s.data.dropWhile Char.isWhitespace).length := List.length_reverse _
    _ ≤ s.data.length := (List.dropWhile_sublist _).length_le

/-- C4: for a summary with at least 10 non-whitespace characters the scorer
computes base 5.0, plus 1.0 when splitting on dots gives 3 to 4 parts and
minus 1.0 for more than 4, plus 0.5 for each strong verb of the lexicon
occurring in the lowercased summary capped at 2.0, plus 1.0 for each
quantifiable-indicator pattern that matches capped at 2.0, minus 0.5 for
each buzzword occurring capped at 2.0, clamped to [0, 10]; a summary that
is empty or shorter than 10 characters scores the fixed 2.0. -/
theorem c4_score_summary_formula (s : String) :
    (10 ≤ s.data.countP (fun c => !c.isWhitespace) →
      score_summary s = clamp10 (5
        + (if 3 ≤ (splitOnDot s.data).length ∧ (splitOnDot s.data).length ≤ 4 then 1
           else if 4 < (splitOnDot s.data).length then -1 else 0)
        + min ((strong_verbs.countP (fun v => containsSub v (lowerStr s)) : ℚ) * (1/2)) 2
        + min ((quantifiable_indicators.countP (fun p => searchToks p (lowerStr s)) : ℚ) * 1) 2
        - min ((buzzwords.countP (fun b => containsSub b (lowerStr s)) : ℚ) * (1/2)) 2)) ∧
    (s = "" ∨ s.length < 10 → score_summary s = 2) := by
  constructor
  · intro h
    have hne : ¬ (s = "" ∨ (pyStrip s).length < 10) := by
      rintro (rfl | hlt)
      · simp at h
      · exact absurd (lt_of_le_of_lt (le_trans h (nonws_le_pyStrip_length s)) hlt)
          (lt_irrefl _)
    unfold score_summary
    rw [if_neg hne]
  · rintro (rfl | hlt)
    · rfl
    · have : (pyStrip s).length < 10 := lt_of_le_of_lt (pyStrip_length_le s) hlt
      unfold score_summary
      rw [if_pos (Or.inr this)]

theorem c4_score_summary_formula_witness :
    10 ≤ ("abcdefghij" : String).data.countP (fun c => !c.isWhitespace) ∧
      score_summary "abcdefghij" = clamp10 (5
        + (if 3 ≤ (splitOnDot ("abcdefghij" : String).data).length
              ∧ (splitOnDot ("abcdefghij" : String).data).length ≤ 4 then 1
           else if 4 < (splitOnDot ("abcdefghij" : String).data).length then -1 else 0)
        + min ((strong_verbs.countP
            (fun v => containsSub v (lowerStr "abcdefghij")) : ℚ) * (1/2)) 2
        + min ((quantifiable_indicators.countP
            (fun p => searchToks p (lowerStr "abcdefghij")) : ℚ) * 1) 2
        - min ((buzzwords.countP
            (fun b => containsSub b (lowerStr "abcdefghij")) : ℚ) * (1/2)) 2) :=
  ⟨by decide, (c4_score_summary_formula "abcdefghij").1 (by decide)⟩

lemma weak_penalty_antitone {x y : ℚ} (h : x ≤ y) :
    (if 1/2 < y then (-3 : ℚ) else if 3/10 < y then -(3/2) else 0)
      ≤ (if 1/2 < x then (-3 : ℚ) else if 3/10 < x then -(3/2) else 0) := by
  split_ifs <;> linarith

lemma strong_bonus_monotone {x y : ℚ} (h : x ≤ y) :
    (if 7/10 < x then (2 : ℚ) else if 1/2 < x then 1 else 0)
      ≤ (if 7/10 < y then (2 : ℚ) else if 1/2 < y then 1 else 0) := by
  split_ifs <;> linarith

lemma score_weak_verbs_of_strong_step (w s : Nat) :
    score_weak_verbs_of w s ≤ score_weak_verbs_of w (s + 1) := by
  simp only [score_weak_verbs_of]
  rcases Nat.eq_zero_or_pos (w + s) with h0 | hpos
  · have hw : w = 0 := by omega
    have hs : s = 0 := by omega
    subst hw
    subst hs
    norm_num [clamp10]
  · have hpos' : 0 < w + (s + 1) := by omega
    rw [if_pos hpos, if_pos hpos']
    apply clamp10_mono
    have hT : (0 : ℚ) < ((w + s : Nat) : ℚ) := by exact_mod_cast hpos
    have hT' : (0 : ℚ) < ((w + (s + 1) : Nat) : ℚ) := by exact_mod_cast hpos'
    have hwr : (w : ℚ) / ((w + (s + 1) : Nat) : ℚ) ≤ (w : ℚ) / ((w + s : Nat) : ℚ) := by
      apply div_le_div_of_nonneg_left ?_ hT ?_
      · positivity
      · push_cast
        linarith
    have hsr : (s : ℚ) / ((w + s : Nat) : ℚ) ≤ ((s + 1 : Nat) : ℚ) / ((w + (s + 1) : Nat) : ℚ) := by
      rw [div_le_div_iff hT hT']
      push_cast
      nlinarith
    exact add_le_add (add_le_add le_rfl (weak_penalty_antitone hwr)) (strong_bonus_monotone hsr)

lemma score_buzzwords_of_antitone {m n : Nat} (h : m ≤ n) :
    score_buzzwords_of n ≤ score_buzzwords_of m := by
  unfold score_buzzwords_of
  apply clamp10_mono
  apply add_le_add le_rfl
  split_ifs <;> try norm_num
  all_goals exfalso
  all_goals omega

/-- C7: with the weak-verb count held fixed, one additional strong-verb
occurrence never decreases `score_weak_verbs` (the weak ratio falls and the
strong ratio rises, and both bucketings move the score weakly upward); one
additional buzzword occurrence never increases `score_buzzwords` (its
four-tier bucketing is antitone in the count). -/
theorem c7_strong_verb_buzzword_monotonicity (r r' q q' : Resume)
    (hw : weak_verb_count r' = weak_verb_count r)
    (hs : strong_verb_count r' = strong_verb_count r + 1)
    (hb : buzzword_count q' = buzzword_count q + 1) :
    score_weak_verbs r ≤ score_weak_verbs r' ∧ score_buzzwords q' ≤ score_buzzwords q := by
  constructor
  · unfold score_weak_verbs
    rw [hw, hs]
    exact score_weak_verbs_of_strong_step _ _
  · unfold score_buzzwords
    rw [hb]
    exact score_buzzwords_of_antitone (Nat.le_succ _)

theorem c7_strong_verb_buzzword_monotonicity_witness :
    score_weak_verbs ({} : Resume) ≤ score_weak_verbs { summary := "developed" } ∧
      score_buzzwords { summary := "synergy" } ≤ score_buzzwords ({} : Resume) :=
  c7_strong_verb_buzzword_monotonicity {} { summary := "developed" }
    {} { summary := "synergy" } (by decide) (by decide) (by decide)

lemma sum_map_snd_mul (l : List (String × ℚ)) (w : ℚ) :
    (l.map (fun p => p.2 * w)).sum = (l.map (fun p => p.2)).sum * w := by
  induction l with
  | nil => simp
  | cons a t ih =>
    simp [ih]
    ring

lemma sum_map_const_weight (l : List (String × ℚ)) (w : ℚ) :
    (l.map (fun _ => w)).sum = (l.length : ℚ) * w := by
  induction l with
  | nil => simp
  | cons a t ih =>
    simp [ih]
    ring

lemma equal_weight_final_score (cfg : ATSConfig) (w : ℚ) (hw : 0 < w)
    (scores : List (String × ℚ)) (hne : scores ≠ [])
    (hweights : ∀ p ∈ scores, List.lookup p.1 cfg.scoring_weights = some w)
    (hboost : ∀ p ∈ scores,
      ¬(p.1 = "summary" ∧ 8 ≤ p.2) ∧ ¬(p.1 = "experience" ∧ 7 ≤ p.2) ∧
      ¬(p.1 = "skills" ∧ 8 ≤ p.2) ∧ ¬(p.1 = "keywords" ∧ 7 ≤ p.2)) :
    calculate_final_score cfg scores
      = round2 (min 10 ((((scores.map (fun p => p.2)).sum) / (scores.length : ℚ)) * (23/20))) := by
  unfold calculate_final_score
  have hmap : scores.map (fun p =>
      ((p.2 * ((List.lookup p.1 cfg.scoring_weights).getD (1/10)) *
        (if p.1 = "summary" ∧ 8 ≤ p.2 then cfg.leadership_boost
         else if p.1 = "experience" ∧ 7 ≤ p.2 then cfg.experience_boost
         else if p.1 = "skills" ∧ 8 ≤ p.2 then cfg.action_verb_boost
         else if p.1 = "keywords" ∧ 7 ≤ p.2 then cfg.keyword_boost
         else 1)),
       ((List.lookup p.1 cfg.scoring_weights).getD (1/10)) *
        (if p.1 = "summary" ∧ 8 ≤ p.2 then cfg.leadership_boost
         else if p.1 = "experience" ∧ 7 ≤ p.2 then cfg.experience_boost
         else if p.1 = "skills" ∧ 8 ≤ p.2 then cfg.action_verb_boost
         else if p.1 = "keywords" ∧ 7 ≤ p.2 then cfg.keyword_boost
         else 1)))
      = scores.map (fun p => (p.2 * w, w)) := by
    apply List.map_congr_left
    intro p hp
    obtain ⟨h1, h2, h3, h4⟩ := hboost p hp
    rw [hweights p hp, if_neg h1, if_neg h2, if_neg h3, if_neg h4]
    simp
  simp only []
  rw [hmap]
  simp only [List.map_map, Function.comp_def]
  rw [sum_map_snd_mul, sum_map_const_weight]
  have hlen : (0 : ℚ) < (scores.length : ℚ) := by
    have : 0 < scores.length := List.length_pos.mpr hne
    exact_mod_cast this
  rw [if_pos (mul_pos hlen hw)]
  rw [mul_div_mul_right _ _ (ne_of_gt hw)]

/-- C5 (amended): `_calculate_final_score` is a pure function of the
configuration and the section scores; in the degenerate case where every
scored section carries one equal positive weight and no boost threshold is
reached, the boosted-weight ratio `total_score / total_weight` collapses to
the plain arithmetic mean of the section scores, and the returned aggregate
is that mean multiplied by the flat 1.15 adjustment, clamped to 10 and
rounded to two decimals — not the bare mean itself. -/
theorem c5_equal_weights_reduce_to_scaled_mean (cfg : ATSConfig) (w : ℚ) (hw : 0 < w)
    (scores : List (String × ℚ)) (hne : scores ≠ [])
    (hweights : ∀ p ∈ scores, List.lookup p.1 cfg.scoring_weights = some w)
    (hboost : ∀ p ∈ scores,
      ¬(p.1 = "summary" ∧ 8 ≤ p.2) ∧ ¬(p.1 = "experience" ∧ 7 ≤ p.2) ∧
      ¬(p.1 = "skills" ∧ 8 ≤ p.2) ∧ ¬(p.1 = "keywords" ∧ 7 ≤ p.2)) :
    calculate_final_score cfg scores
      = round2 (min 10 ((((scores.map (fun p => p.2)).sum) / (scores.length : ℚ)) * (23/20))) :=
  equal_weight_final_score cfg w hw scores hne hweights hboost

/-- All-equal weights over the six sections, for the C5 instances. -/
def c5_config : ATSConfig :=
  { scoring_weights :=
      [("summary", 1/6), ("experience", 1/6), ("skills", 1/6),
       ("education", 1/6), ("keywords", 1/6), ("formatting", 1/6)] }

/-- Six section scores of 5.0 each (below every boost threshold). -/
def c5_scores : List (String × ℚ) :=
  [("summary", 5), ("experience", 5), ("skills", 5),
   ("education", 5), ("keywords", 5), ("formatting", 5)]

theorem c5_equal_weights_reduce_to_scaled_mean_witness :
    calculate_final_score c5_config c5_scores
      = round2 (min 10 ((((c5_scores.map (fun p => p.2)).sum) / (c5_scores.length : ℚ)) * (23/20))) :=
  c5_equal_weights_reduce_to_scaled_mean c5_config (1/6) (by norm_num) c5_scores
    (by simp [c5_scores])
    (by
      intro p hp
      simp only [c5_scores, List.mem_cons, List.not_mem_nil, or_false] at hp
      rcases hp with rfl | rfl | rfl | rfl | rfl | rfl <;> rfl)
    (by
      intro p hp
      simp only [c5_scores, List.mem_cons, List.not_mem_nil, or_false] at hp
      rcases hp with rfl | rfl | rfl | rfl | rfl | rfl <;> norm_num)

/-- C5 (counterexample): with all six weights equal to 1/6 and every section
score 5.0, the plain arithmetic mean is 5.0 but the aggregate produced is
round(min(10, 5.0·1.15), 2) = 5.75, so the aggregate does not equal the
plain mean. -/
theorem c5_equal_weights_not_plain_mean :
    calculate_final_score c5_config c5_scores
      ≠ ((c5_scores.map (fun p => p.2)).sum / (c5_scores.length : ℚ)) := by
  have h := equal_weight_final_score c5_config (1/6) (by norm_num) c5_scores
    (by simp [c5_scores])
    (by
      intro p hp
      simp only [c5_scores, List.mem_cons, List.not_mem_nil, or_false] at hp
      rcases hp with rfl | rfl | rfl | rfl | rfl | rfl <;> rfl)
    (by
      intro p hp
      simp only [c5_scores, List.mem_cons, List.not_mem_nil, or_false] at hp
      rcases hp with rfl | rfl | rfl | rfl | rfl | rfl <;> norm_num)
  rw [h]
  have hsum : (c5_scores.map (fun p => p.2)).sum = 30 := by
    simp [c5_scores]
    norm_num
  have hlen : (c5_scores.length : ℚ) = 6 := by
    simp [c5_scores]
  rw [hsum, hlen]
  have hmin : min (10 : ℚ) ((30 / 6) * (23/20)) = 23/4 := by norm_num [min_def]
  rw [hmin]
  rw [round2_of_mul_hundred_int _ 575 (by push_cast; norm_num)]
  norm_num
